import Mathlib

/-!
Shallow embedding of the `AgentEscrow` Solidity contract
(src/contracts/AgentEscrow.sol) together with the OpenZeppelin ERC-20
token it settles in (MockMNEE).  Machine integers are `Nat` with the
`uint256` bound made explicit: Solidity 0.8 checked arithmetic reverts on
overflow or underflow, modelled by the `EsError.Panic` error.  Every
contract entry point is a total function from a `World` (task registry
plus token ledger), the caller address and the block timestamp to
`Except EsError World`: an `Except.error` is a revert, which in the EVM
rolls back all state, so an erroring call simply produces no new world.
-/

set_option maxRecDepth 4000

namespace AgentEscrow

/-- Largest value representable in a `uint256`. -/
def UINT_MAX : Nat := 2 ^ 256 - 1

/-- Time window for the worker to reveal after commit (10 minutes), from the contract. -/
def REVEAL_WINDOW : Nat := 600

/-- Minimum bond as basis points of the payment amount (10%), from the contract. -/
def MIN_BOND_BPS : Nat := 1000

/-- Maximum input size in bytes (4 KB), from the contract. -/
def MAX_INPUT_SIZE : Nat := 4096

/-- Maximum output size in bytes (4 KB), from the contract. -/
def MAX_OUTPUT_SIZE : Nat := 4096

/-- Revert reasons: the contract's typed errors, the checked-arithmetic
panic of Solidity 0.8, and the custom errors of the OpenZeppelin ERC-20
the escrow transfers through. -/
inductive EsError where
  | InvalidAmount
  | InvalidBondAmount
  | InvalidDeadline
  | InputTooLarge
  | OutputTooLarge
  | TaskNotOpen
  | TaskNotCommitted
  | TaskAlreadyFinalized
  | CommitWindowClosed
  | RevealWindowExpired
  | RevealWindowActive
  | DeadlineNotPassed
  | NotCommittedWorker
  | InvalidCommitHash
  | OutputHashMismatch
  | Panic
  | ERC20InvalidSender
  | ERC20InvalidReceiver
  | ERC20InsufficientBalance
  | ERC20InsufficientAllowance
  deriving DecidableEq

/-- Task lifecycle states, from the contract's `TaskState` enum; `OPEN` is
the first variant and hence the default value of an uninitialised mapping
slot. -/
inductive TaskState where
  | OPEN
  | COMMITTED
  | COMPLETED
  | REFUNDED
  deriving DecidableEq

/-- One escrowed work order, mirroring the contract's `Task` struct.
Addresses and `bytes32` digests are both modelled as `Nat` (the zero
address is `0`). -/
structure Task where
  requester : Nat
  inputHash : Nat
  expectedOutputHash : Nat
  specHash : Nat
  amount : Nat
  bondAmount : Nat
  deadline : Nat
  state : TaskState
  committedWorker : Nat
  commitHash : Nat
  revealDeadline : Nat
  deriving DecidableEq

/-- Value of an uninitialised slot of `mapping(uint256 => Task)`: every
field zero, which for the enum means `OPEN`. -/
def Task.default : Task :=
  { requester := 0, inputHash := 0, expectedOutputHash := 0, specHash := 0,
    amount := 0, bondAmount := 0, deadline := 0, state := TaskState.OPEN,
    committedWorker := 0, commitHash := 0, revealDeadline := 0 }

/-- Deterministic stand-in for `keccak256` on a byte string (bytes are the
entries of the list).  The contract only ever compares hashes for
equality, so no cryptographic property is relied on. -/
def keccak (bs : List Nat) : Nat :=
  bs.foldl (fun a b => a * 256 + b + 1) 7

/-- Deterministic stand-in for `keccak256(abi.encode(h, salt))`, the
commitment hash of the contract. -/
def keccakPair (h salt : Nat) : Nat :=
  Nat.pair h salt

/-- Pointwise update of a balance map. -/
def updBal (m : Nat → Nat) (k v : Nat) : Nat → Nat :=
  fun x => if x = k then v else m x

/-- Pointwise update of an allowance map (owner, spender). -/
def updAllow (m : Nat → Nat → Nat) (o s v : Nat) : Nat → Nat → Nat :=
  fun o2 s2 => if o2 = o ∧ s2 = s then v else m o2 s2

/-- Ledger of the MNEE ERC-20 token: balances and allowances. -/
structure TokenState where
  balances : Nat → Nat
  allowances : Nat → Nat → Nat

/-- Balance map after a successful transfer: debit `src`, then credit
`dst` on the debited map (so a self-transfer leaves the map unchanged). -/
def transferBalances (bal : Nat → Nat) (src dst value : Nat) : Nat → Nat :=
  updBal (updBal bal src (bal src - value)) dst
    (updBal bal src (bal src - value) dst + value)

/-- OpenZeppelin `ERC20._update` restricted to the transfer case (neither
end is the zero address): revert when the source balance is short,
otherwise debit the source and credit the destination. -/
def erc20Update (t : TokenState) (src dst value : Nat) : Except EsError TokenState :=
  if t.balances src < value then Except.error EsError.ERC20InsufficientBalance
  else
    let afterDebit := updBal t.balances src (t.balances src - value)
    Except.ok { t with balances := updBal afterDebit dst (afterDebit dst + value) }

/-- OpenZeppelin `ERC20._transfer`: zero-address checks, then `_update`. -/
def erc20Transfer (t : TokenState) (src dst value : Nat) : Except EsError TokenState :=
  if src = 0 then Except.error EsError.ERC20InvalidSender
  else if dst = 0 then Except.error EsError.ERC20InvalidReceiver
  else erc20Update t src dst value

/-- OpenZeppelin `ERC20.transferFrom` as called through `SafeERC20`:
spend the spender's allowance (an allowance of `UINT_MAX` is treated as
infinite and not decreased), then transfer. -/
def erc20TransferFrom (t : TokenState) (spender src dst value : Nat) :
    Except EsError TokenState :=
  let cur := t.allowances src spender
  if cur = UINT_MAX then erc20Transfer t src dst value
  else if cur < value then Except.error EsError.ERC20InsufficientAllowance
  else erc20Transfer { t with allowances := updAllow t.allowances src spender (cur - value) } src dst value

/-- Storage of the escrow contract: the `tasks` mapping (total map with
default slots) and the `nextTaskId` counter. -/
structure EscrowState where
  tasks : Nat → Task
  nextTaskId : Nat

/-- Pointwise update of the task mapping. -/
def setTask (m : Nat → Task) (k : Nat) (v : Task) : Nat → Task :=
  fun x => if x = k then v else m x

/-- Whole modelled system: escrow storage plus the token ledger. -/
structure World where
  escrow : EscrowState
  token : TokenState

/-- Address of the deployed escrow contract (`address(this)`); any fixed
nonzero account distinct from the participants in the scenarios. -/
def escrowAddr : Nat := 999

/-- Contract entry point `createTask`, guard for guard in source order:
input size, amount, bond ratio `(amount * MIN_BOND_BPS) / 10000` (the
multiplication is checked), deadline skew (the addition is checked),
`nextTaskId++` (checked), store the record in state `OPEN`, then pull the
payment from the caller.  Returns the new world and the task id. -/
def createTask (w : World) (sender now : Nat) (inputBytes : List Nat)
    (expectedOutputHash specHash amount bondAmount deadline : Nat) :
    Except EsError (World × Nat) :=
  if MAX_INPUT_SIZE < inputBytes.length then Except.error EsError.InputTooLarge
  else if amount = 0 then Except.error EsError.InvalidAmount
  else if UINT_MAX < amount * MIN_BOND_BPS then Except.error EsError.Panic
  else if bondAmount < amount * MIN_BOND_BPS / 10000 then Except.error EsError.InvalidBondAmount
  else if UINT_MAX < now + REVEAL_WINDOW then Except.error EsError.Panic
  else if deadline ≤ now + REVEAL_WINDOW then Except.error EsError.InvalidDeadline
  else if UINT_MAX < w.escrow.nextTaskId + 1 then Except.error EsError.Panic
  else
    let taskId := w.escrow.nextTaskId
    let task : Task :=
      { requester := sender, inputHash := keccak inputBytes,
        expectedOutputHash := expectedOutputHash, specHash := specHash,
        amount := amount, bondAmount := bondAmount, deadline := deadline,
        state := TaskState.OPEN, committedWorker := 0, commitHash := 0,
        revealDeadline := 0 }
    match erc20TransferFrom w.token escrowAddr sender escrowAddr amount with
    | Except.error e => Except.error e
    | Except.ok tok =>
        Except.ok ({ escrow := { tasks := setTask w.escrow.tasks taskId task,
                                 nextTaskId := taskId + 1 },
                     token := tok }, taskId)

/-- Contract entry point `commit`: state guard, then the checked
subtraction `task.deadline - REVEAL_WINDOW` (underflow panics), the
strict commit-window guard, the checked reveal deadline, the state
update, then pull the bond from the caller. -/
def commit (w : World) (sender now taskId commitHash : Nat) : Except EsError World :=
  let task := w.escrow.tasks taskId
  if task.state ≠ TaskState.OPEN then Except.error EsError.TaskNotOpen
  else if task.deadline < REVEAL_WINDOW then Except.error EsError.Panic
  else if task.deadline - REVEAL_WINDOW ≤ now then Except.error EsError.CommitWindowClosed
  else if UINT_MAX < now + REVEAL_WINDOW then Except.error EsError.Panic
  else
    let task2 := { task with
      state := TaskState.COMMITTED
      committedWorker := sender
      commitHash := commitHash
      revealDeadline := now + REVEAL_WINDOW }
    match erc20TransferFrom w.token escrowAddr sender escrowAddr task.bondAmount with
    | Except.error e => Except.error e
    | Except.ok tok =>
        Except.ok { escrow := { w.escrow with tasks := setTask w.escrow.tasks taskId task2 },
                    token := tok }

/-- Contract entry point `reveal`, guards in source order: output size,
state, caller identity, timing, commitment hash, expected output hash;
then mark `COMPLETED` and pay `amount + bondAmount` (checked addition) to
the caller in a single transfer.  The commitment fields are not
cleared on completion. -/
def reveal (w : World) (sender now taskId : Nat) (outputBytes : List Nat)
    (salt : Nat) : Except EsError World :=
  let task := w.escrow.tasks taskId
  if MAX_OUTPUT_SIZE < outputBytes.length then Except.error EsError.OutputTooLarge
  else if task.state ≠ TaskState.COMMITTED then Except.error EsError.TaskNotCommitted
  else if sender ≠ task.committedWorker then Except.error EsError.NotCommittedWorker
  else if task.revealDeadline < now then Except.error EsError.RevealWindowExpired
  else if keccakPair (keccak outputBytes) salt ≠ task.commitHash then Except.error EsError.InvalidCommitHash
  else if keccak outputBytes ≠ task.expectedOutputHash then Except.error EsError.OutputHashMismatch
  else if UINT_MAX < task.amount + task.bondAmount then Except.error EsError.Panic
  else
    let task2 := { task with state := TaskState.COMPLETED }
    match erc20Transfer w.token escrowAddr sender (task.amount + task.bondAmount) with
    | Except.error e => Except.error e
    | Except.ok tok =>
        Except.ok { escrow := { w.escrow with tasks := setTask w.escrow.tasks taskId task2 },
                    token := tok }

/-- Contract entry point `expireCommit`: state and timing guards, clear
the commitment fields, reset the task to `OPEN`, then pay the slashed
bond to the recorded requester (never to the caller). -/
def expireCommit (w : World) (sender now taskId : Nat) : Except EsError World :=
  let task := w.escrow.tasks taskId
  if task.state ≠ TaskState.COMMITTED then Except.error EsError.TaskNotCommitted
  else if now ≤ task.revealDeadline then Except.error EsError.RevealWindowActive
  else if task.deadline < now then Except.error EsError.DeadlineNotPassed
  else
    let task2 := { task with
      state := TaskState.OPEN
      committedWorker := 0
      commitHash := 0
      revealDeadline := 0 }
    match erc20Transfer w.token escrowAddr task.requester task.bondAmount with
    | Except.error e => Except.error e
    | Except.ok tok =>
        Except.ok { escrow := { w.escrow with tasks := setTask w.escrow.tasks taskId task2 },
                    token := tok }

/-- Contract entry point `claimTimeout`: terminal-state guard, deadline
guard, reveal-window guard for committed tasks; then mark `REFUNDED`
(without clearing the commitment fields) and pay the recorded requester
`amount`, plus the slashed bond when the task was committed.  The
addition `refundAmount + slashedBond` is checked. -/
def claimTimeout (w : World) (sender now taskId : Nat) : Except EsError World :=
  let task := w.escrow.tasks taskId
  if task.state = TaskState.COMPLETED ∨ task.state = TaskState.REFUNDED then
    Except.error EsError.TaskAlreadyFinalized
  else if now ≤ task.deadline then Except.error EsError.DeadlineNotPassed
  else if task.state = TaskState.COMMITTED ∧ now ≤ task.revealDeadline then
    Except.error EsError.RevealWindowActive
  else
    let slashedBond := if task.state = TaskState.COMMITTED then task.bondAmount else 0
    let task2 := { task with state := TaskState.REFUNDED }
    if 0 < slashedBond then
      if UINT_MAX < task.amount + slashedBond then Except.error EsError.Panic
      else
        match erc20Transfer w.token escrowAddr task.requester (task.amount + slashedBond) with
        | Except.error e => Except.error e
        | Except.ok tok =>
            Except.ok { escrow := { w.escrow with tasks := setTask w.escrow.tasks taskId task2 },
                        token := tok }
    else
      match erc20Transfer w.token escrowAddr task.requester task.amount with
      | Except.error e => Except.error e
      | Except.ok tok =>
          Except.ok { escrow := { w.escrow with tasks := setTask w.escrow.tasks taskId task2 },
                      token := tok }

/-- Deployment-time world: empty task registry, zero id counter, and an
arbitrary initial token ledger. -/
def initWorld (bal : Nat → Nat) (allow : Nat → Nat → Nat) : World :=
  { escrow := { tasks := fun _ => Task.default, nextTaskId := 0 },
    token := { balances := bal, allowances := allow } }

/-- One successful invocation of any contract entry point, by any caller,
at any block timestamp. -/
inductive Step : World → World → Prop where
  | create {w w2 : World} {s now eoh sph amt bnd dl id : Nat} {inb : List Nat} :
      createTask w s now inb eoh sph amt bnd dl = Except.ok (w2, id) → Step w w2
  | commitStep {w w2 : World} {s now id ch : Nat} :
      commit w s now id ch = Except.ok w2 → Step w w2
  | revealStep {w w2 : World} {s now id salt : Nat} {out : List Nat} :
      reveal w s now id out salt = Except.ok w2 → Step w w2
  | expire {w w2 : World} {s now id : Nat} :
      expireCommit w s now id = Except.ok w2 → Step w w2
  | timeout {w w2 : World} {s now id : Nat} :
      claimTimeout w s now id = Except.ok w2 → Step w w2

/-- Worlds reachable from some deployment by successful contract calls. -/
inductive Reachable : World → Prop where
  | init (bal : Nat → Nat) (allow : Nat → Nat → Nat) : Reachable (initWorld bal allow)
  | step {w w2 : World} : Reachable w → Step w w2 → Reachable w2

/-- Initial token balances of the concrete scenario: requester `1` holds
100, workers `2` and `3` hold 50 each. -/
def demoBal : Nat → Nat :=
  fun a => if a = 1 then 100 else if a = 2 then 50 else if a = 3 then 50 else 0

/-- Initial allowances of the concrete scenario: every participant has
approved the escrow for its full balance. -/
def demoAllow : Nat → Nat → Nat :=
  fun o s => if s = escrowAddr then demoBal o else 0

/-- Deployment world of the concrete scenario. -/
def demoW0 : World := initWorld demoBal demoAllow

/-- Output payload of the concrete scenario (the byte string "X"). -/
def outX : List Nat := [88]

/-- Salt of the concrete scenario (the byte of "S"). -/
def saltS : Nat := 83

/-- Commitment hash the scenario's worker posts: `hash(hash("X"), "S")`. -/
def demoCommitHash : Nat := keccakPair (keccak outX) saltS

/-- World after `createTask` by requester `1` at time 1000 with
`amount = 10`, `bondAmount = 1`, `deadline = 1000 + 3600`. -/
def afterCreate : World :=
  match createTask demoW0 1 1000 [1, 2, 3] (keccak outX) 0 10 1 4600 with
  | Except.ok p => p.1
  | Except.error _ => demoW0

/-- World after worker `2` commits at time 1001. -/
def afterCommit : World :=
  match commit afterCreate 2 1001 0 demoCommitHash with
  | Except.ok w => w
  | Except.error _ => afterCreate

/-- World after worker `2` reveals `("X", "S")` at time 1002. -/
def afterReveal : World :=
  match reveal afterCommit 2 1002 0 outX saltS with
  | Except.ok w => w
  | Except.error _ => afterCommit

/-- World after a bystander `3` calls `claimTimeout` at time 4601 on the
committed (never revealed) task of the scenario. -/
def afterRug : World :=
  match claimTimeout afterCommit 3 4601 0 with
  | Except.ok w => w
  | Except.error _ => afterCommit

/-- World after a bystander `3` calls `expireCommit` at time 1602 on the
committed (never revealed) task of the scenario. -/
def afterExpire : World :=
  match expireCommit afterCommit 3 1602 0 with
  | Except.ok w => w
  | Except.error _ => afterCommit

/-- World after a fresh worker `3` commits again, at time 1700, to the
task that was reopened by `expireCommit`. -/
def afterRecommit : World :=
  match commit afterExpire 3 1700 0 demoCommitHash with
  | Except.ok w => w
  | Except.error _ => afterExpire

/-- World after a bystander `3` calls `claimTimeout` at time 4601 on the
scenario task while it is still OPEN (no worker ever committed). -/
def afterTimeoutOpen : World :=
  match claimTimeout afterCreate 3 4601 0 with
  | Except.ok w => w
  | Except.error _ => afterCreate

/-- Registry invariant: every task id at or above `nextTaskId` still holds
the default (never-written) record. -/
def NoPhantoms (w : World) : Prop :=
  ∀ id, w.escrow.nextTaskId ≤ id → w.escrow.tasks id = Task.default

/-- Timing invariant of committed tasks: the reveal deadline was set to
some commit time plus `REVEAL_WINDOW` (equivalently, it is at least
`REVEAL_WINDOW`) and lies strictly before the task deadline. -/
def CommittedTiming (w : World) : Prop :=
  ∀ id, (w.escrow.tasks id).state = TaskState.COMMITTED →
    REVEAL_WINDOW ≤ (w.escrow.tasks id).revealDeadline ∧
    (w.escrow.tasks id).revealDeadline < (w.escrow.tasks id).deadline

/-! Helper lemmas about the map updates and the token ledger. -/

theorem updBal_self (m : Nat → Nat) (k v : Nat) : updBal m k v k = v := by
  simp [updBal]

theorem updBal_other (m : Nat → Nat) {k x : Nat} (v : Nat) (h : x ≠ k) :
    updBal m k v x = m x := by
  simp [updBal, h]

theorem setTask_self (m : Nat → Task) (k : Nat) (v : Task) : setTask m k v k = v := by
  simp [setTask]

theorem setTask_other (m : Nat → Task) {k x : Nat} (v : Task) (h : x ≠ k) :
    setTask m k v x = m x := by
  simp [setTask, h]

theorem erc20Transfer_ok {t : TokenState} {src dst value : Nat}
    (hs : src ≠ 0) (hd : dst ≠ 0) (hv : value ≤ t.balances src) :
    erc20Transfer t src dst value = Except.ok
      { t with balances := transferBalances t.balances src dst value } := by
  unfold erc20Transfer erc20Update transferBalances
  rw [if_neg hs, if_neg hd, if_neg (not_lt.mpr hv)]

theorem erc20Transfer_inv {t t2 : TokenState} {src dst value : Nat}
    (h : erc20Transfer t src dst value = Except.ok t2) :
    src ≠ 0 ∧ dst ≠ 0 ∧ value ≤ t.balances src ∧
    t2.balances = transferBalances t.balances src dst value := by
  unfold erc20Transfer erc20Update at h
  split_ifs at h with h1 h2 h3
  cases h
  exact ⟨h1, h2, not_lt.mp h3, rfl⟩

theorem erc20TransferFrom_ok {t : TokenState} {spender src dst value : Nat}
    (ha : value ≤ t.allowances src spender) (hs : src ≠ 0) (hd : dst ≠ 0)
    (hv : value ≤ t.balances src) :
    ∃ t2, erc20TransferFrom t spender src dst value = Except.ok t2 ∧
      t2.balances = transferBalances t.balances src dst value := by
  unfold erc20TransferFrom
  dsimp only
  by_cases hmax : t.allowances src spender = UINT_MAX
  · rw [if_pos hmax, erc20Transfer_ok hs hd hv]
    exact ⟨_, rfl, rfl⟩
  · rw [if_neg hmax, if_neg (not_lt.mpr ha),
      erc20Transfer_ok (t := { t with allowances := updAllow t.allowances src spender (t.allowances src spender - value) }) hs hd hv]
    exact ⟨_, rfl, rfl⟩

theorem erc20TransferFrom_inv {t t2 : TokenState} {spender src dst value : Nat}
    (h : erc20TransferFrom t spender src dst value = Except.ok t2) :
    src ≠ 0 ∧ dst ≠ 0 ∧ value ≤ t.balances src ∧
    t2.balances = transferBalances t.balances src dst value := by
  unfold erc20TransferFrom at h
  dsimp only at h
  split_ifs at h with h1 h2
  · exact erc20Transfer_inv h
  · obtain ⟨a, b, c, d⟩ := erc20Transfer_inv h
    exact ⟨a, b, c, d⟩

/-! Inversion lemmas: what a successful call of each contract entry point
implies about its guards and about the post-state. -/

theorem createTask_ok_inv {w w2 : World} {sender now eoh sph amt bnd dl id : Nat}
    {inb : List Nat}
    (h : createTask w sender now inb eoh sph amt bnd dl = Except.ok (w2, id)) :
    id = w.escrow.nextTaskId ∧
    w2.escrow.nextTaskId = w.escrow.nextTaskId + 1 ∧
    amt ≠ 0 ∧ amt * MIN_BOND_BPS / 10000 ≤ bnd ∧ now + REVEAL_WINDOW < dl ∧
    inb.length ≤ MAX_INPUT_SIZE ∧ sender ≠ 0 ∧
    w2.token.balances = transferBalances w.token.balances sender escrowAddr amt ∧
    w2.escrow.tasks = setTask w.escrow.tasks w.escrow.nextTaskId
      { requester := sender, inputHash := keccak inb, expectedOutputHash := eoh,
        specHash := sph, amount := amt, bondAmount := bnd, deadline := dl,
        state := TaskState.OPEN, committedWorker := 0, commitHash := 0,
        revealDeadline := 0 } := by
  unfold createTask at h
  dsimp only at h
  split_ifs at h with h1 h2 h3 h4 h5 h6 h7
  split at h
  · exact Except.noConfusion h
  next tok htok =>
    rw [Except.ok.injEq, Prod.mk.injEq] at h
    obtain ⟨hw, hid⟩ := h
    subst hw
    subst hid
    exact ⟨rfl, rfl, h2, not_lt.mp h4, not_le.mp h6, not_lt.mp h1,
      (erc20TransferFrom_inv htok).1, (erc20TransferFrom_inv htok).2.2.2, rfl⟩

theorem commit_ok_inv {w w2 : World} {sender now taskId ch : Nat}
    (h : commit w sender now taskId ch = Except.ok w2) :
    (w.escrow.tasks taskId).state = TaskState.OPEN ∧
    REVEAL_WINDOW ≤ (w.escrow.tasks taskId).deadline ∧
    now < (w.escrow.tasks taskId).deadline - REVEAL_WINDOW ∧
    w2.escrow.nextTaskId = w.escrow.nextTaskId ∧
    w2.token.balances = transferBalances w.token.balances sender escrowAddr
      (w.escrow.tasks taskId).bondAmount ∧
    w2.escrow.tasks = setTask w.escrow.tasks taskId
      { w.escrow.tasks taskId with
        state := TaskState.COMMITTED
        committedWorker := sender
        commitHash := ch
        revealDeadline := now + REVEAL_WINDOW } := by
  unfold commit at h
  dsimp only at h
  split_ifs at h with h1 h2 h3 h4
  split at h
  · exact Except.noConfusion h
  next tok htok =>
    cases h
    exact ⟨not_not.mp h1, by omega, by omega, rfl, (erc20TransferFrom_inv htok).2.2.2, rfl⟩

theorem reveal_ok_inv {w w2 : World} {sender now taskId salt : Nat} {out : List Nat}
    (h : reveal w sender now taskId out salt = Except.ok w2) :
    (w.escrow.tasks taskId).state = TaskState.COMMITTED ∧
    sender = (w.escrow.tasks taskId).committedWorker ∧
    now ≤ (w.escrow.tasks taskId).revealDeadline ∧
    out.length ≤ MAX_OUTPUT_SIZE ∧
    keccakPair (keccak out) salt = (w.escrow.tasks taskId).commitHash ∧
    keccak out = (w.escrow.tasks taskId).expectedOutputHash ∧
    w2.escrow.nextTaskId = w.escrow.nextTaskId ∧
    w2.token.balances = transferBalances w.token.balances escrowAddr sender
      ((w.escrow.tasks taskId).amount + (w.escrow.tasks taskId).bondAmount) ∧
    w2.escrow.tasks = setTask w.escrow.tasks taskId
      { w.escrow.tasks taskId with state := TaskState.COMPLETED } := by
  unfold reveal at h
  dsimp only at h
  split_ifs at h with h1 h2 h3 h4 h5 h6 h7
  split at h
  · exact Except.noConfusion h
  next tok htok =>
    cases h
    exact ⟨not_not.mp h2, not_not.mp h3, not_lt.mp h4, not_lt.mp h1,
      not_not.mp h5, not_not.mp h6, rfl, (erc20Transfer_inv htok).2.2.2, rfl⟩

theorem expireCommit_ok_inv {w w2 : World} {sender now taskId : Nat}
    (h : expireCommit w sender now taskId = Except.ok w2) :
    (w.escrow.tasks taskId).state = TaskState.COMMITTED ∧
    (w.escrow.tasks taskId).revealDeadline < now ∧
    now ≤ (w.escrow.tasks taskId).deadline ∧
    (w.escrow.tasks taskId).requester ≠ 0 ∧
    w2.escrow.nextTaskId = w.escrow.nextTaskId ∧
    w2.token.balances = transferBalances w.token.balances escrowAddr
      (w.escrow.tasks taskId).requester (w.escrow.tasks taskId).bondAmount ∧
    w2.escrow.tasks = setTask w.escrow.tasks taskId
      { w.escrow.tasks taskId with
        state := TaskState.OPEN
        committedWorker := 0
        commitHash := 0
        revealDeadline := 0 } := by
  unfold expireCommit at h
  dsimp only at h
  split_ifs at h with h1 h2 h3
  split at h
  · exact Except.noConfusion h
  next tok htok =>
    cases h
    exact ⟨not_not.mp h1, not_le.mp h2, not_lt.mp h3,
      (erc20Transfer_inv htok).2.1, rfl, (erc20Transfer_inv htok).2.2.2, rfl⟩

theorem claimTimeout_ok_inv {w w2 : World} {sender now taskId : Nat}
    (h : claimTimeout w sender now taskId = Except.ok w2) :
    (w.escrow.tasks taskId).state ≠ TaskState.COMPLETED ∧
    (w.escrow.tasks taskId).state ≠ TaskState.REFUNDED ∧
    (w.escrow.tasks taskId).deadline < now ∧
    ((w.escrow.tasks taskId).state = TaskState.COMMITTED →
      (w.escrow.tasks taskId).revealDeadline < now) ∧
    (w.escrow.tasks taskId).requester ≠ 0 ∧
    w2.escrow.nextTaskId = w.escrow.nextTaskId ∧
    w2.token.balances = transferBalances w.token.balances escrowAddr
      (w.escrow.tasks taskId).requester
      ((w.escrow.tasks taskId).amount + (if (w.escrow.tasks taskId).state = TaskState.COMMITTED then (w.escrow.tasks taskId).bondAmount else 0)) ∧
    w2.escrow.tasks = setTask w.escrow.tasks taskId
      { w.escrow.tasks taskId with state := TaskState.REFUNDED } := by
  unfold claimTimeout at h
  dsimp only at h
  by_cases hcom : (w.escrow.tasks taskId).state = TaskState.COMMITTED
  · rw [if_neg (by simp [hcom]), if_pos hcom] at h
    split_ifs at h with h2 h3 h4 h5
    · split at h
      · exact Except.noConfusion h
      next tok htok =>
        cases h
        refine ⟨by simp [hcom], by simp [hcom], not_le.mp h2,
          fun hc => not_le.mp (fun hle => h3 ⟨hc, hle⟩),
          (erc20Transfer_inv htok).2.1, rfl, ?_, rfl⟩
        rw [if_pos hcom]
        exact (erc20Transfer_inv htok).2.2.2
    · split at h
      · exact Except.noConfusion h
      next tok htok =>
        cases h
        refine ⟨by simp [hcom], by simp [hcom], not_le.mp h2,
          fun hc => not_le.mp (fun hle => h3 ⟨hc, hle⟩),
          (erc20Transfer_inv htok).2.1, rfl, ?_, rfl⟩
        rw [if_pos hcom]
        have hb0 : (w.escrow.tasks taskId).bondAmount = 0 := by omega
        rw [hb0]
        exact (erc20Transfer_inv htok).2.2.2
  · rw [if_neg hcom] at h
    split_ifs at h with h1 h2 h3 h4 h5
    · exact absurd h4 (by omega)
    · split at h
      · exact Except.noConfusion h
      next tok htok =>
        cases h
        refine ⟨fun hc => h1 (Or.inl hc), fun hc => h1 (Or.inr hc), not_le.mp h2,
          fun hc => absurd hc hcom,
          (erc20Transfer_inv htok).2.1, rfl, ?_, rfl⟩
        rw [if_neg hcom]
        exact (erc20Transfer_inv htok).2.2.2

/-! Reachability invariants of the escrow storage. -/

theorem step_noPhantoms {w w2 : World} (hw : NoPhantoms w) (hs : Step w w2) :
    NoPhantoms w2 := by
  cases hs with
  | create h =>
    obtain ⟨_, hnext, _, _, _, _, _, _, htasks⟩ := createTask_ok_inv h
    intro i hi
    rw [hnext] at hi
    rw [htasks, setTask_other _ _ (by omega : i ≠ w.escrow.nextTaskId)]
    exact hw i (by omega)
  | @commitStep s now tid ch h =>
    obtain ⟨_, hdl, _, hnext, _, htasks⟩ := commit_ok_inv h
    intro i hi
    rw [hnext] at hi
    by_cases hik : i = tid
    · subst hik
      rw [hw i hi] at hdl
      exact absurd hdl (by simp [Task.default, REVEAL_WINDOW])
    · rw [htasks, setTask_other _ _ hik]
      exact hw i hi
  | @revealStep s now tid salt out h =>
    obtain ⟨hst, _, _, _, _, _, hnext, _, htasks⟩ := reveal_ok_inv h
    intro i hi
    rw [hnext] at hi
    by_cases hik : i = tid
    · subst hik
      rw [hw i hi] at hst
      exact absurd hst (by simp [Task.default])
    · rw [htasks, setTask_other _ _ hik]
      exact hw i hi
  | @expire s now tid h =>
    obtain ⟨hst, _, _, _, hnext, _, htasks⟩ := expireCommit_ok_inv h
    intro i hi
    rw [hnext] at hi
    by_cases hik : i = tid
    · subst hik
      rw [hw i hi] at hst
      exact absurd hst (by simp [Task.default])
    · rw [htasks, setTask_other _ _ hik]
      exact hw i hi
  | @timeout s now tid h =>
    obtain ⟨_, _, _, _, hreq, hnext, _, htasks⟩ := claimTimeout_ok_inv h
    intro i hi
    rw [hnext] at hi
    by_cases hik : i = tid
    · subst hik
      rw [hw i hi] at hreq
      exact absurd rfl hreq
    · rw [htasks, setTask_other _ _ hik]
      exact hw i hi

theorem reachable_noPhantoms {w : World} (h : Reachable w) : NoPhantoms w := by
  induction h with
  | init bal allow => intro i _; rfl
  | step _ hs ih => exact step_noPhantoms ih hs

theorem step_committedTiming {w w2 : World} (hw : CommittedTiming w) (hs : Step w w2) :
    CommittedTiming w2 := by
  cases hs with
  | create h =>
    obtain ⟨_, _, _, _, _, _, _, _, htasks⟩ := createTask_ok_inv h
    intro i hst
    rw [htasks] at hst ⊢
    by_cases hik : i = w.escrow.nextTaskId
    · subst hik
      rw [setTask_self] at hst
      exact absurd hst (by simp)
    · rw [setTask_other _ _ hik] at hst ⊢
      exact hw i hst
  | @commitStep s now tid ch h =>
    obtain ⟨_, hdl, hnow, _, _, htasks⟩ := commit_ok_inv h
    intro i hst
    rw [htasks] at hst ⊢
    by_cases hik : i = tid
    · subst hik
      rw [setTask_self] at hst ⊢
      dsimp only at hst ⊢
      simp only [REVEAL_WINDOW] at hdl hnow ⊢
      omega
    · rw [setTask_other _ _ hik] at hst ⊢
      exact hw i hst
  | @revealStep s now tid salt out h =>
    obtain ⟨_, _, _, _, _, _, _, _, htasks⟩ := reveal_ok_inv h
    intro i hst
    rw [htasks] at hst ⊢
    by_cases hik : i = tid
    · subst hik
      rw [setTask_self] at hst
      exact absurd hst (by simp)
    · rw [setTask_other _ _ hik] at hst ⊢
      exact hw i hst
  | @expire s now tid h =>
    obtain ⟨_, _, _, _, _, _, htasks⟩ := expireCommit_ok_inv h
    intro i hst
    rw [htasks] at hst ⊢
    by_cases hik : i = tid
    · subst hik
      rw [setTask_self] at hst
      exact absurd hst (by simp)
    · rw [setTask_other _ _ hik] at hst ⊢
      exact hw i hst
  | @timeout s now tid h =>
    obtain ⟨_, _, _, _, _, _, _, htasks⟩ := claimTimeout_ok_inv h
    intro i hst
    rw [htasks] at hst ⊢
    by_cases hik : i = tid
    · subst hik
      rw [setTask_self] at hst
      exact absurd hst (by simp)
    · rw [setTask_other _ _ hik] at hst ⊢
      exact hw i hst

theorem reachable_committedTiming {w : World} (h : Reachable w) : CommittedTiming w := by
  induction h with
  | init bal allow =>
    intro i hst
    exact absurd hst (by simp [initWorld, Task.default])
  | step _ hs ih => exact step_committedTiming ih hs

/-! Pointwise values of a post-transfer balance map. -/

theorem transferBalances_dst {bal : Nat → Nat} {src dst v : Nat} (h : dst ≠ src) :
    transferBalances bal src dst v dst = bal dst + v := by
  simp [transferBalances, updBal, h]

theorem transferBalances_src {bal : Nat → Nat} {src dst v : Nat} (h : src ≠ dst) :
    transferBalances bal src dst v src = bal src - v := by
  simp [transferBalances, updBal, h]

theorem transferBalances_other {bal : Nat → Nat} {src dst v a : Nat}
    (h1 : a ≠ src) (h2 : a ≠ dst) : transferBalances bal src dst v a = bal a := by
  simp [transferBalances, updBal, h1, h2]

/-! The concrete scenario worlds are reachable. -/

theorem reachable_demoW0 : Reachable demoW0 :=
  Reachable.init demoBal demoAllow

theorem reachable_afterCreate : Reachable afterCreate :=
  Reachable.step reachable_demoW0
    (@Step.create demoW0 afterCreate 1 1000 (keccak outX) 0 10 1 4600 0 [1, 2, 3] rfl)

theorem reachable_afterCommit : Reachable afterCommit :=
  Reachable.step reachable_afterCreate
    (@Step.commitStep afterCreate afterCommit 2 1001 0 demoCommitHash rfl)

/-! Claim theorems. -/

/-- Claim C1, counterexample to the stated error attribution: on a COMPLETED
(terminal) task, a `reveal` whose payload exceeds `MAX_OUTPUT_SIZE` fails with
`OutputTooLarge` — because `reveal` checks the payload size before the task
state — and not with `TaskNotCommitted` as the claim states. -/
theorem c1_counterexample :
    (afterReveal.escrow.tasks 0).state = TaskState.COMPLETED ∧
    reveal afterReveal 2 1003 0 (List.replicate 4097 0) saltS =
      Except.error EsError.OutputTooLarge ∧
    EsError.OutputTooLarge ≠ EsError.TaskNotCommitted := by
  refine ⟨rfl, ?_, by decide⟩
  unfold reveal
  dsimp only
  rw [if_pos (by rw [List.length_replicate]; decide)]

/-- Claim C1 (amended): once a task is in a terminal state (COMPLETED or
REFUNDED), every subsequent call of `reveal` (with a payload within the
4096-byte size limit; an oversized payload fails earlier with
`OutputTooLarge`), `expireCommit`, or `claimTimeout` on it fails — `reveal`
and `expireCommit` with `TaskNotCommitted`, `claimTimeout` with
`TaskAlreadyFinalized` — so a terminal task never pays out again. -/
theorem c1_terminal_idempotent {w : World} {sender now taskId salt : Nat}
    {out : List Nat}
    (hterm : (w.escrow.tasks taskId).state = TaskState.COMPLETED ∨
      (w.escrow.tasks taskId).state = TaskState.REFUNDED) :
    (out.length ≤ MAX_OUTPUT_SIZE →
      reveal w sender now taskId out salt = Except.error EsError.TaskNotCommitted) ∧
    expireCommit w sender now taskId = Except.error EsError.TaskNotCommitted ∧
    claimTimeout w sender now taskId = Except.error EsError.TaskAlreadyFinalized := by
  have hnc : (w.escrow.tasks taskId).state ≠ TaskState.COMMITTED := by
    rcases hterm with h | h <;> simp [h]
  refine ⟨fun hlen => ?_, ?_, ?_⟩
  · unfold reveal
    dsimp only
    rw [if_neg (not_lt.mpr hlen), if_pos hnc]
  · unfold expireCommit
    dsimp only
    rw [if_pos hnc]
  · unfold claimTimeout
    dsimp only
    rw [if_pos hterm]

/-- Witness for C1 at the completed happy-path task of the scenario. -/
theorem c1_terminal_idempotent_witness :
    ((afterReveal.escrow.tasks 0).state = TaskState.COMPLETED ∨
      (afterReveal.escrow.tasks 0).state = TaskState.REFUNDED) ∧
    ((outX.length ≤ MAX_OUTPUT_SIZE →
      reveal afterReveal 2 1003 0 outX saltS = Except.error EsError.TaskNotCommitted) ∧
     expireCommit afterReveal 2 1003 0 = Except.error EsError.TaskNotCommitted ∧
     claimTimeout afterReveal 2 1003 0 = Except.error EsError.TaskAlreadyFinalized) :=
  ⟨Or.inl rfl, c1_terminal_idempotent (Or.inl rfl)⟩

/-- Claim C2, counterexample: `claimTimeout` on a committed task succeeds
(moving it to REFUNDED) yet leaves `committedWorker`, `commitHash` and
`revealDeadline` populated — the code clears them only in `expireCommit`. -/
theorem c2_counterexample :
    (afterCommit.escrow.tasks 0).state = TaskState.COMMITTED ∧
    claimTimeout afterCommit 3 4601 0 = Except.ok afterRug ∧
    (afterRug.escrow.tasks 0).state = TaskState.REFUNDED ∧
    (afterRug.escrow.tasks 0).committedWorker ≠ 0 ∧
    (afterRug.escrow.tasks 0).commitHash ≠ 0 ∧
    (afterRug.escrow.tasks 0).revealDeadline ≠ 0 :=
  ⟨rfl, rfl, rfl, by decide, by decide, by decide⟩

/-- Claim C2 (amended): the fields `committedWorker`, `commitHash` and
`revealDeadline` are cleared when a task leaves COMMITTED through
`expireCommit` (back to OPEN), but `claimTimeout` moves a committed task to
REFUNDED leaving all three fields unchanged, so they can remain populated in
a terminal REFUNDED task. -/
theorem c2_commit_fields :
    (∀ (w w2 : World) (sender now taskId : Nat),
      expireCommit w sender now taskId = Except.ok w2 →
      (w2.escrow.tasks taskId).state = TaskState.OPEN ∧
      (w2.escrow.tasks taskId).committedWorker = 0 ∧
      (w2.escrow.tasks taskId).commitHash = 0 ∧
      (w2.escrow.tasks taskId).revealDeadline = 0) ∧
    (∀ (w w2 : World) (sender now taskId : Nat),
      claimTimeout w sender now taskId = Except.ok w2 →
      (w2.escrow.tasks taskId).state = TaskState.REFUNDED ∧
      (w2.escrow.tasks taskId).committedWorker = (w.escrow.tasks taskId).committedWorker ∧
      (w2.escrow.tasks taskId).commitHash = (w.escrow.tasks taskId).commitHash ∧
      (w2.escrow.tasks taskId).revealDeadline = (w.escrow.tasks taskId).revealDeadline) := by
  constructor
  · intro w w2 sender now taskId h
    obtain ⟨_, _, _, _, _, _, htasks⟩ := expireCommit_ok_inv h
    rw [htasks, setTask_self]
    exact ⟨rfl, rfl, rfl, rfl⟩
  · intro w w2 sender now taskId h
    obtain ⟨_, _, _, _, _, _, _, htasks⟩ := claimTimeout_ok_inv h
    rw [htasks, setTask_self]
    exact ⟨rfl, rfl, rfl, rfl⟩

/-- Witness for C2: the expiry path of the scenario clears the fields, the
timeout path keeps them. -/
theorem c2_commit_fields_witness :
    expireCommit afterCommit 3 1602 0 = Except.ok afterExpire ∧
    ((afterExpire.escrow.tasks 0).state = TaskState.OPEN ∧
     (afterExpire.escrow.tasks 0).committedWorker = 0 ∧
     (afterExpire.escrow.tasks 0).commitHash = 0 ∧
     (afterExpire.escrow.tasks 0).revealDeadline = 0) ∧
    claimTimeout afterCommit 3 4601 0 = Except.ok afterRug ∧
    ((afterRug.escrow.tasks 0).state = TaskState.REFUNDED ∧
     (afterRug.escrow.tasks 0).committedWorker = (afterCommit.escrow.tasks 0).committedWorker ∧
     (afterRug.escrow.tasks 0).commitHash = (afterCommit.escrow.tasks 0).commitHash ∧
     (afterRug.escrow.tasks 0).revealDeadline = (afterCommit.escrow.tasks 0).revealDeadline) :=
  ⟨rfl, c2_commit_fields.1 afterCommit afterExpire 3 1602 0 rfl, rfl,
   c2_commit_fields.2 afterCommit afterRug 3 4601 0 rfl⟩

/-- Claim C3: in every reachable world, every COMMITTED task has
`revealDeadline = commitTime + REVEAL_WINDOW` for some commit time and
`revealDeadline < deadline` strictly; every successful commit at time `now`
stores `revealDeadline = now + REVEAL_WINDOW` strictly below the deadline;
and on an OPEN task whose deadline admits the subtraction, commit rejects
with `CommitWindowClosed` whenever `now ≥ deadline - REVEAL_WINDOW`. -/
theorem c3_committed_timing {w : World} (hw : Reachable w) :
    (∀ taskId, (w.escrow.tasks taskId).state = TaskState.COMMITTED →
      (∃ commitTime, (w.escrow.tasks taskId).revealDeadline = commitTime + REVEAL_WINDOW) ∧
      (w.escrow.tasks taskId).revealDeadline < (w.escrow.tasks taskId).deadline) ∧
    (∀ (w2 : World) (sender now taskId ch : Nat),
      commit w sender now taskId ch = Except.ok w2 →
      (w2.escrow.tasks taskId).revealDeadline = now + REVEAL_WINDOW ∧
      (w2.escrow.tasks taskId).revealDeadline < (w2.escrow.tasks taskId).deadline) ∧
    (∀ (sender now taskId ch : Nat),
      (w.escrow.tasks taskId).state = TaskState.OPEN →
      REVEAL_WINDOW ≤ (w.escrow.tasks taskId).deadline →
      (w.escrow.tasks taskId).deadline - REVEAL_WINDOW ≤ now →
      commit w sender now taskId ch = Except.error EsError.CommitWindowClosed) := by
  refine ⟨?_, ?_, ?_⟩
  · intro taskId hst
    obtain ⟨h600, hlt⟩ := reachable_committedTiming hw taskId hst
    exact ⟨⟨(w.escrow.tasks taskId).revealDeadline - REVEAL_WINDOW, by omega⟩, hlt⟩
  · intro w2 sender now taskId ch h
    obtain ⟨_, hdl, hnow, _, _, htasks⟩ := commit_ok_inv h
    rw [htasks, setTask_self]
    dsimp only
    refine ⟨rfl, ?_⟩
    simp only [REVEAL_WINDOW] at hdl hnow ⊢
    omega
  · intro sender now taskId ch hopen h600 hnow
    unfold commit
    dsimp only
    rw [if_neg (by simp [hopen]), if_neg (not_lt.mpr h600), if_pos hnow]

/-- Witness for C3 at the scenario commit (deadline 4600, commit at 1001). -/
theorem c3_committed_timing_witness :
    Reachable afterCommit ∧
    (afterCommit.escrow.tasks 0).state = TaskState.COMMITTED ∧
    (∃ commitTime, (afterCommit.escrow.tasks 0).revealDeadline = commitTime + REVEAL_WINDOW) ∧
    (afterCommit.escrow.tasks 0).revealDeadline < (afterCommit.escrow.tasks 0).deadline :=
  ⟨reachable_afterCommit, rfl,
   ((c3_committed_timing reachable_afterCommit).1 0 rfl).1,
   ((c3_committed_timing reachable_afterCommit).1 0 rfl).2⟩

/-- Claim C4: a reveal by the committed worker, within the reveal window,
with a payload within the size limit whose hashes match the commitment and
the expected output, completes the task and credits `amount + bondAmount` to
the worker in one transfer; and the permissionless recovery paths
(`expireCommit`, `claimTimeout`) never credit any account other than the
recorded requester (and the escrow itself), so reveal is the only operation
that returns the bond to the worker. -/
theorem c4_reveal_pays_worker {w : World} {sender now taskId salt : Nat}
    {out : List Nat}
    (hst : (w.escrow.tasks taskId).state = TaskState.COMMITTED)
    (hwk : sender = (w.escrow.tasks taskId).committedWorker)
    (htime : now ≤ (w.escrow.tasks taskId).revealDeadline)
    (hlen : out.length ≤ MAX_OUTPUT_SIZE)
    (hch : keccakPair (keccak out) salt = (w.escrow.tasks taskId).commitHash)
    (hoh : keccak out = (w.escrow.tasks taskId).expectedOutputHash)
    (hover : (w.escrow.tasks taskId).amount + (w.escrow.tasks taskId).bondAmount ≤ UINT_MAX)
    (hs0 : sender ≠ 0) (hse : sender ≠ escrowAddr)
    (hbal : (w.escrow.tasks taskId).amount + (w.escrow.tasks taskId).bondAmount ≤
      w.token.balances escrowAddr) :
    ∃ w2, reveal w sender now taskId out salt = Except.ok w2 ∧
      (w2.escrow.tasks taskId).state = TaskState.COMPLETED ∧
      w2.token.balances sender = w.token.balances sender +
        ((w.escrow.tasks taskId).amount + (w.escrow.tasks taskId).bondAmount) ∧
      w2.token.balances escrowAddr = w.token.balances escrowAddr -
        ((w.escrow.tasks taskId).amount + (w.escrow.tasks taskId).bondAmount) ∧
      (∀ a, a ≠ sender → a ≠ escrowAddr → w2.token.balances a = w.token.balances a) ∧
      (∀ (wb w2b : World) (sb nb idb : Nat),
        expireCommit wb sb nb idb = Except.ok w2b →
        ∀ a, a ≠ (wb.escrow.tasks idb).requester → a ≠ escrowAddr →
          w2b.token.balances a = wb.token.balances a) ∧
      (∀ (wb w2b : World) (sb nb idb : Nat),
        claimTimeout wb sb nb idb = Except.ok w2b →
        ∀ a, a ≠ (wb.escrow.tasks idb).requester → a ≠ escrowAddr →
          w2b.token.balances a = wb.token.balances a) := by
  have hesc0 : escrowAddr ≠ 0 := by decide
  have htr := @erc20Transfer_ok w.token escrowAddr sender ((w.escrow.tasks taskId).amount + (w.escrow.tasks taskId).bondAmount) hesc0 hs0 hbal
  have hrun : reveal w sender now taskId out salt = Except.ok
      { escrow := { w.escrow with tasks := setTask w.escrow.tasks taskId { w.escrow.tasks taskId with state := TaskState.COMPLETED } },
        token := { w.token with balances := transferBalances w.token.balances escrowAddr sender ((w.escrow.tasks taskId).amount + (w.escrow.tasks taskId).bondAmount) } } := by
    unfold reveal
    dsimp only
    rw [if_neg (not_lt.mpr hlen), if_neg (by simp [hst]), if_neg (by simp [hwk]),
      if_neg (not_lt.mpr htime), if_neg (by simp [hch]), if_neg (by simp [hoh]),
      if_neg (not_lt.mpr hover), htr]
  refine ⟨_, hrun, ?_, ?_, ?_, ?_, ?_, ?_⟩
  · simp [setTask]
  · exact transferBalances_dst hse
  · exact transferBalances_src (Ne.symm hse)
  · intro a ha hae
    exact transferBalances_other hae ha
  · intro wb w2b sb nb idb hok a ha hae
    obtain ⟨_, _, _, _, _, htokb, _⟩ := expireCommit_ok_inv hok
    rw [htokb]
    exact transferBalances_other hae ha
  · intro wb w2b sb nb idb hok a ha hae
    obtain ⟨_, _, _, _, _, _, htokb, _⟩ := claimTimeout_ok_inv hok
    rw [htokb]
    exact transferBalances_other hae ha

/-- Witness for C4: the scenario happy path — create(amount 10, bond 1,
deadline now+3600), commit, matching reveal; the task completes, the worker
(account 2, holding 49 after posting the bond) receives 11, and the
requester (account 1, starting at 100) ends at 90, a net decrease of 10. -/
theorem c4_reveal_pays_worker_witness :
    (afterCommit.escrow.tasks 0).state = TaskState.COMMITTED ∧
    (2 : Nat) = (afterCommit.escrow.tasks 0).committedWorker ∧
    (∃ w2, reveal afterCommit 2 1002 0 outX saltS = Except.ok w2 ∧
      (w2.escrow.tasks 0).state = TaskState.COMPLETED ∧
      w2.token.balances 2 = afterCommit.token.balances 2 +
        ((afterCommit.escrow.tasks 0).amount + (afterCommit.escrow.tasks 0).bondAmount)) ∧
    reveal afterCommit 2 1002 0 outX saltS = Except.ok afterReveal ∧
    afterCommit.token.balances 2 = 49 ∧
    afterReveal.token.balances 2 = 60 ∧
    demoBal 1 = 100 ∧
    afterReveal.token.balances 1 = 90 ∧
    (afterReveal.escrow.tasks 0).state = TaskState.COMPLETED := by
  refine ⟨rfl, rfl, ?_, rfl, by decide, by decide, by decide, by decide, rfl⟩
  obtain ⟨w2, e1, e2, e3, _⟩ := @c4_reveal_pays_worker afterCommit 2 1002 0 saltS outX
    rfl rfl (by decide) (by decide) rfl rfl (by decide) (by decide) (by decide) (by decide)
  exact ⟨w2, e1, e2, e3⟩

/-- Claim C5: on a committed task, a reveal by any caller other than the
committed worker fails with `NotCommittedWorker`, even with the exact
payload and salt the worker would use (the guard binds to caller identity,
not payload knowledge). -/
theorem c5_front_running {w : World} {sender now taskId salt : Nat} {out : List Nat}
    (hst : (w.escrow.tasks taskId).state = TaskState.COMMITTED)
    (hwk : sender ≠ (w.escrow.tasks taskId).committedWorker)
    (hlen : out.length ≤ MAX_OUTPUT_SIZE) :
    reveal w sender now taskId out salt = Except.error EsError.NotCommittedWorker := by
  unfold reveal
  dsimp only
  rw [if_neg (not_lt.mpr hlen), if_neg (by simp [hst]), if_pos hwk]

/-- Witness for C5: attacker 3 copies the exact payload and salt of the
scenario's committed worker 2 and still fails; the worker's own reveal with
the same data succeeds. -/
theorem c5_front_running_witness :
    (afterCommit.escrow.tasks 0).state = TaskState.COMMITTED ∧
    (3 : Nat) ≠ (afterCommit.escrow.tasks 0).committedWorker ∧
    outX.length ≤ MAX_OUTPUT_SIZE ∧
    reveal afterCommit 3 1002 0 outX saltS = Except.error EsError.NotCommittedWorker ∧
    reveal afterCommit 2 1002 0 outX saltS = Except.ok afterReveal :=
  ⟨rfl, by decide, by decide, c5_front_running rfl (by decide) (by decide), rfl⟩

/-- Claim C6: `expireCommit` is callable by any party; on a committed task
strictly after the reveal deadline and at or before the task deadline it
clears the commitment fields, reopens the task (same deadline and bond, so a
new worker may commit), and pays the full bond to the recorded requester —
never to the caller, whose balance is untouched. -/
theorem c6_expire_commit {w : World} {sender now taskId : Nat}
    (hst : (w.escrow.tasks taskId).state = TaskState.COMMITTED)
    (ht1 : (w.escrow.tasks taskId).revealDeadline < now)
    (ht2 : now ≤ (w.escrow.tasks taskId).deadline)
    (hreq0 : (w.escrow.tasks taskId).requester ≠ 0)
    (hreqe : (w.escrow.tasks taskId).requester ≠ escrowAddr)
    (hbal : (w.escrow.tasks taskId).bondAmount ≤ w.token.balances escrowAddr) :
    ∃ w2, expireCommit w sender now taskId = Except.ok w2 ∧
      (w2.escrow.tasks taskId).state = TaskState.OPEN ∧
      (w2.escrow.tasks taskId).committedWorker = 0 ∧
      (w2.escrow.tasks taskId).commitHash = 0 ∧
      (w2.escrow.tasks taskId).revealDeadline = 0 ∧
      (w2.escrow.tasks taskId).deadline = (w.escrow.tasks taskId).deadline ∧
      (w2.escrow.tasks taskId).bondAmount = (w.escrow.tasks taskId).bondAmount ∧
      w2.token.balances (w.escrow.tasks taskId).requester =
        w.token.balances (w.escrow.tasks taskId).requester + (w.escrow.tasks taskId).bondAmount ∧
      (∀ a, a ≠ (w.escrow.tasks taskId).requester → a ≠ escrowAddr →
        w2.token.balances a = w.token.balances a) := by
  have hesc0 : escrowAddr ≠ 0 := by decide
  have htr := erc20Transfer_ok (t := w.token) hesc0 hreq0 hbal
  have hrun : expireCommit w sender now taskId = Except.ok
      { escrow := { w.escrow with tasks := setTask w.escrow.tasks taskId { w.escrow.tasks taskId with state := TaskState.OPEN, committedWorker := 0, commitHash := 0, revealDeadline := 0 } },
        token := { w.token with balances := transferBalances w.token.balances escrowAddr (w.escrow.tasks taskId).requester (w.escrow.tasks taskId).bondAmount } } := by
    unfold expireCommit
    dsimp only
    rw [if_neg (by simp [hst]), if_neg (not_le.mpr ht1), if_neg (not_lt.mpr ht2), htr]
  refine ⟨_, hrun, ?_, ?_, ?_, ?_, ?_, ?_, ?_, ?_⟩
  · simp [setTask]
  · simp [setTask]
  · simp [setTask]
  · simp [setTask]
  · simp [setTask]
  · simp [setTask]
  · exact transferBalances_dst hreqe
  · intro a ha hae
    exact transferBalances_other hae ha

/-- Witness for C6: the scenario grief path — worker 2 never reveals,
bystander 3 expires the commit at 1602; the requester is paid the bond
(balance 90 to 91), the task is OPEN again, and a second worker 3 then
commits to the same task. -/
theorem c6_expire_commit_witness :
    (afterCommit.escrow.tasks 0).state = TaskState.COMMITTED ∧
    (afterCommit.escrow.tasks 0).revealDeadline < 1602 ∧
    (∃ w2, expireCommit afterCommit 3 1602 0 = Except.ok w2 ∧
      (w2.escrow.tasks 0).state = TaskState.OPEN ∧
      (w2.escrow.tasks 0).committedWorker = 0 ∧
      w2.token.balances (afterCommit.escrow.tasks 0).requester =
        afterCommit.token.balances (afterCommit.escrow.tasks 0).requester +
          (afterCommit.escrow.tasks 0).bondAmount) ∧
    expireCommit afterCommit 3 1602 0 = Except.ok afterExpire ∧
    afterExpire.token.balances 1 = 91 ∧
    afterExpire.token.balances 3 = 50 ∧
    commit afterExpire 3 1700 0 demoCommitHash = Except.ok afterRecommit ∧
    (afterRecommit.escrow.tasks 0).state = TaskState.COMMITTED ∧
    (afterRecommit.escrow.tasks 0).committedWorker = 3 := by
  refine ⟨rfl, by decide, ?_, rfl, by decide, by decide, rfl, rfl, by decide⟩
  obtain ⟨w2, e1, e2, e3, _, _, _, _, e8, _⟩ := @c6_expire_commit afterCommit 3 1602 0
    rfl (by decide) (by decide) (by decide) (by decide) (by decide)
  exact ⟨w2, e1, e2, e3, e8⟩

/-- Claim C7: `claimTimeout` on a non-terminal task strictly after the
deadline (and, when committed, strictly after the reveal deadline) refunds
the recorded requester the escrowed amount, plus the slashed bond when a
worker was committed; the caller's identity plays no role and no account
other than the requester (and the escrow) is credited. -/
theorem c7_claim_timeout {w : World} {sender now taskId : Nat}
    (h1 : (w.escrow.tasks taskId).state ≠ TaskState.COMPLETED)
    (h2 : (w.escrow.tasks taskId).state ≠ TaskState.REFUNDED)
    (h3 : (w.escrow.tasks taskId).deadline < now)
    (h4 : (w.escrow.tasks taskId).state = TaskState.COMMITTED →
      (w.escrow.tasks taskId).revealDeadline < now)
    (hreq0 : (w.escrow.tasks taskId).requester ≠ 0)
    (hreqe : (w.escrow.tasks taskId).requester ≠ escrowAddr)
    (hover : (w.escrow.tasks taskId).amount + (w.escrow.tasks taskId).bondAmount ≤ UINT_MAX)
    (hbal : (w.escrow.tasks taskId).amount +
      (if (w.escrow.tasks taskId).state = TaskState.COMMITTED then (w.escrow.tasks taskId).bondAmount else 0) ≤
      w.token.balances escrowAddr) :
    ∃ w2, claimTimeout w sender now taskId = Except.ok w2 ∧
      (w2.escrow.tasks taskId).state = TaskState.REFUNDED ∧
      w2.token.balances (w.escrow.tasks taskId).requester =
        w.token.balances (w.escrow.tasks taskId).requester +
        ((w.escrow.tasks taskId).amount +
          (if (w.escrow.tasks taskId).state = TaskState.COMMITTED then (w.escrow.tasks taskId).bondAmount else 0)) ∧
      (∀ a, a ≠ (w.escrow.tasks taskId).requester → a ≠ escrowAddr →
        w2.token.balances a = w.token.balances a) := by
  have hesc0 : escrowAddr ≠ 0 := by decide
  have hex : ∃ w2, claimTimeout w sender now taskId = Except.ok w2 := by
    unfold claimTimeout
    dsimp only
    rw [if_neg (fun hor => hor.elim h1 h2), if_neg (not_le.mpr h3),
      if_neg (fun hc => absurd hc.2 (not_le.mpr (h4 hc.1)))]
    by_cases hcom : (w.escrow.tasks taskId).state = TaskState.COMMITTED
    · rw [if_pos hcom] at hbal ⊢
      by_cases hb : 0 < (w.escrow.tasks taskId).bondAmount
      · rw [if_pos hb, if_neg (not_lt.mpr hover), erc20Transfer_ok hesc0 hreq0 hbal]
        exact ⟨_, rfl⟩
      · rw [if_neg hb,
          erc20Transfer_ok hesc0 hreq0 (by omega : (w.escrow.tasks taskId).amount ≤ w.token.balances escrowAddr)]
        exact ⟨_, rfl⟩
    · rw [if_neg hcom] at hbal ⊢
      rw [if_neg (by decide : ¬(0:Nat) < 0),
        erc20Transfer_ok hesc0 hreq0 (by omega : (w.escrow.tasks taskId).amount ≤ w.token.balances escrowAddr)]
      exact ⟨_, rfl⟩
  obtain ⟨w2, hok⟩ := hex
  obtain ⟨_, _, _, _, _, _, htok, htasks⟩ := claimTimeout_ok_inv hok
  refine ⟨w2, hok, ?_, ?_, ?_⟩
  · rw [htasks, setTask_self]
  · rw [htok]
    exact transferBalances_dst hreqe
  · intro a ha hae
    rw [htok]
    exact transferBalances_other hae ha

/-- Witness for C7: bystander 3 claims timeout at 4601 on the scenario's
committed-but-never-revealed task; the requester receives amount plus bond
(balance 90 to 101) and the caller gains nothing.  On the OPEN variant of
the scenario the same call refunds the amount alone (balance 90 to 100). -/
theorem c7_claim_timeout_witness :
    (afterCommit.escrow.tasks 0).deadline < 4601 ∧
    (∃ w2, claimTimeout afterCommit 3 4601 0 = Except.ok w2 ∧
      (w2.escrow.tasks 0).state = TaskState.REFUNDED ∧
      w2.token.balances (afterCommit.escrow.tasks 0).requester =
        afterCommit.token.balances (afterCommit.escrow.tasks 0).requester +
        ((afterCommit.escrow.tasks 0).amount +
          (if (afterCommit.escrow.tasks 0).state = TaskState.COMMITTED then (afterCommit.escrow.tasks 0).bondAmount else 0))) ∧
    claimTimeout afterCommit 3 4601 0 = Except.ok afterRug ∧
    afterRug.token.balances 1 = 101 ∧
    afterRug.token.balances 3 = 50 ∧
    claimTimeout afterCreate 3 4601 0 = Except.ok afterTimeoutOpen ∧
    (afterTimeoutOpen.escrow.tasks 0).state = TaskState.REFUNDED ∧
    afterTimeoutOpen.token.balances 1 = 100 := by
  refine ⟨by decide, ?_, rfl, by decide, by decide, rfl, rfl, by decide⟩
  obtain ⟨w2, e1, e2, e3, _⟩ := @c7_claim_timeout afterCommit 3 4601 0
    (by decide) (by decide) (by decide) (fun _ => by decide)
    (by decide) (by decide) (by decide) (by decide)
  exact ⟨w2, e1, e2, e3⟩

/-- Claim C8: a successful creation stores a task whose bond is at least a
tenth of the amount (the code computes `(amount * 1000) / 10000`, which in
integer arithmetic equals `amount / 10`) and whose deadline strictly exceeds
`creationTime + REVEAL_WINDOW`; otherwise the call fails with
`InvalidBondAmount` (respectively `InvalidDeadline`) before any state is
written or funds moved — an erroring call returns no new world; in
particular a bond that is exactly 5% of the amount is rejected. -/
theorem c8_creation_validation {w : World} {sender now eoh sph amt bnd dl : Nat}
    {inb : List Nat} :
    (∀ (w2 : World) (id : Nat),
      createTask w sender now inb eoh sph amt bnd dl = Except.ok (w2, id) →
      amt / 10 ≤ bnd ∧ now + REVEAL_WINDOW < dl ∧
      (w2.escrow.tasks id).bondAmount = bnd ∧
      (w2.escrow.tasks id).deadline = dl ∧
      (w2.escrow.tasks id).amount = amt) ∧
    (inb.length ≤ MAX_INPUT_SIZE → amt ≠ 0 → amt * MIN_BOND_BPS ≤ UINT_MAX →
      bnd < amt / 10 →
      createTask w sender now inb eoh sph amt bnd dl = Except.error EsError.InvalidBondAmount) ∧
    (inb.length ≤ MAX_INPUT_SIZE → amt ≠ 0 → amt * MIN_BOND_BPS ≤ UINT_MAX →
      amt / 10 ≤ bnd → now + REVEAL_WINDOW ≤ UINT_MAX → dl ≤ now + REVEAL_WINDOW →
      createTask w sender now inb eoh sph amt bnd dl = Except.error EsError.InvalidDeadline) ∧
    (amt = 20 * bnd → amt ≠ 0 → inb.length ≤ MAX_INPUT_SIZE → amt * MIN_BOND_BPS ≤ UINT_MAX →
      createTask w sender now inb eoh sph amt bnd dl = Except.error EsError.InvalidBondAmount) := by
  have hdiv : amt * MIN_BOND_BPS / 10000 = amt / 10 := by
    simp only [MIN_BOND_BPS]
    omega
  refine ⟨?_, ?_, ?_, ?_⟩
  · intro w2 id h
    obtain ⟨hid, _, _, hbond, hdl2, _, _, _, htasks⟩ := createTask_ok_inv h
    subst hid
    rw [htasks, setTask_self]
    exact ⟨hdiv ▸ hbond, hdl2, rfl, rfl, rfl⟩
  · intro hl h0 hov hb
    unfold createTask
    dsimp only
    rw [if_neg (not_lt.mpr hl), if_neg h0, if_neg (not_lt.mpr hov),
      if_pos (show bnd < amt * MIN_BOND_BPS / 10000 by rw [hdiv]; exact hb)]
  · intro hl h0 hov hb hnov hdl3
    unfold createTask
    dsimp only
    rw [if_neg (not_lt.mpr hl), if_neg h0, if_neg (not_lt.mpr hov),
      if_neg (show ¬bnd < amt * MIN_BOND_BPS / 10000 by rw [hdiv]; omega),
      if_neg (not_lt.mpr hnov), if_pos hdl3]
  · intro h20 h0 hl hov
    unfold createTask
    dsimp only
    rw [if_neg (not_lt.mpr hl), if_neg h0, if_neg (not_lt.mpr hov),
      if_pos (show bnd < amt * MIN_BOND_BPS / 10000 by simp only [MIN_BOND_BPS]; omega)]

/-- Witness for C8: the scenario's valid creation (amount 10, bond 1) and
the cheap-bond rejection (amount 20, bond 1 — exactly 5%). -/
theorem c8_creation_validation_witness :
    createTask demoW0 1 1000 [1, 2, 3] (keccak outX) 0 10 1 4600 = Except.ok (afterCreate, 0) ∧
    ((10:Nat) / 10 ≤ 1 ∧ 1000 + REVEAL_WINDOW < 4600 ∧
      (afterCreate.escrow.tasks 0).bondAmount = 1 ∧
      (afterCreate.escrow.tasks 0).deadline = 4600 ∧
      (afterCreate.escrow.tasks 0).amount = 10) ∧
    ((20:Nat) = 20 * 1 ∧ (20:Nat) ≠ 0 ∧ ([1] : List Nat).length ≤ MAX_INPUT_SIZE ∧
      20 * MIN_BOND_BPS ≤ UINT_MAX) ∧
    createTask demoW0 1 1000 [1] 0 0 20 1 4600 = Except.error EsError.InvalidBondAmount :=
  ⟨rfl, (@c8_creation_validation demoW0 1 1000 (keccak outX) 0 10 1 4600 [1, 2, 3]).1 afterCreate 0 rfl,
   ⟨by decide, by decide, by decide, by decide⟩,
   (@c8_creation_validation demoW0 1 1000 0 0 20 1 4600 [1]).2.2.2 (by decide) (by decide) (by decide) (by decide)⟩

/-- Claim C9: a commit on a task id that was never created (id at or above
`nextTaskId`) always reverts, at every timestamp, with the
checked-arithmetic panic — the default record reads as OPEN so the
`TaskNotOpen` guard passes, but its zero deadline makes
`deadline - REVEAL_WINDOW` underflow — and not with a typed error. -/
theorem c9_phantom_commit {w : World} {sender now taskId ch : Nat}
    (hw : Reachable w) (hid : w.escrow.nextTaskId ≤ taskId) :
    commit w sender now taskId ch = Except.error EsError.Panic ∧
    EsError.Panic ≠ EsError.TaskNotOpen ∧
    EsError.Panic ≠ EsError.CommitWindowClosed := by
  have hdef := reachable_noPhantoms hw taskId hid
  refine ⟨?_, by decide, by decide⟩
  unfold commit
  dsimp only
  rw [hdef, if_neg (by simp [Task.default]),
    if_pos (by simp [Task.default, REVEAL_WINDOW])]

/-- Witness for C9 at the deployment world and the never-created task 0. -/
theorem c9_phantom_commit_witness :
    Reachable demoW0 ∧ demoW0.escrow.nextTaskId ≤ 0 ∧
    (commit demoW0 2 1000 0 5 = Except.error EsError.Panic ∧
     EsError.Panic ≠ EsError.TaskNotOpen ∧
     EsError.Panic ≠ EsError.CommitWindowClosed) :=
  ⟨reachable_demoW0, by decide, c9_phantom_commit reachable_demoW0 (by decide)⟩

/-- Claim C10: a `claimTimeout` on a never-created task id at any positive
timestamp passes every escrow guard (the default record is OPEN, hence not
finalized, and its zero deadline has passed) and dies only in the token:
the attempted transfer of the zero amount to the zero-address requester is
rejected by the ERC-20 with its invalid-receiver error. -/
theorem c10_phantom_claim_timeout {w : World} {sender now taskId : Nat}
    (hw : Reachable w) (hid : w.escrow.nextTaskId ≤ taskId) (hnow : 0 < now) :
    (w.escrow.tasks taskId).requester = 0 ∧
    (w.escrow.tasks taskId).amount = 0 ∧
    claimTimeout w sender now taskId = Except.error EsError.ERC20InvalidReceiver := by
  have hdef := reachable_noPhantoms hw taskId hid
  refine ⟨by rw [hdef]; rfl, by rw [hdef]; rfl, ?_⟩
  unfold claimTimeout
  dsimp only
  rw [hdef, if_neg (by simp [Task.default]),
    if_neg (show ¬now ≤ Task.default.deadline by simp [Task.default]; omega),
    if_neg (by simp [Task.default]),
    if_neg (by simp [Task.default])]
  rfl

/-- Witness for C10 at the deployment world, task 0, timestamp 5. -/
theorem c10_phantom_claim_timeout_witness :
    Reachable demoW0 ∧ demoW0.escrow.nextTaskId ≤ 0 ∧ (0:Nat) < 5 ∧
    ((demoW0.escrow.tasks 0).requester = 0 ∧
     (demoW0.escrow.tasks 0).amount = 0 ∧
     claimTimeout demoW0 3 5 0 = Except.error EsError.ERC20InvalidReceiver) :=
  ⟨reachable_demoW0, by decide, by decide,
   c10_phantom_claim_timeout reachable_demoW0 (by decide) (by decide)⟩

end AgentEscrow
